import Mathlib

/-!
Shallow embedding of the kosmos-meteor Monte Carlo impact-risk simulator
(src/kosmos_meteor), together with theorems checking the natural-language
specification against it.  Machine reals (numpy/python floats) are modelled
as exact reals `ℝ`; python dicts of float results are modelled as partial
maps from string keys; exceptions are modelled with `Except`.
-/

open scoped Classical

namespace Kosmos

/-- Python exception kinds raised by the embedded code paths. -/
inductive PyErr where
  | nameError : PyErr
  | typeError : PyErr
deriving DecidableEq

/-- One sampled asteroid/impact scenario (a row of the impact cases
DataFrame), restricted to the columns read by the simulation models. -/
structure Case where
  diameter : ℝ
  density : ℝ
  speed : ℝ
  angle : ℝ

/-- A python dict of named float results, as passed between pipeline
stages. -/
def PyDict : Type := String → Option ℝ

/-- `d.get(k, dflt)` on a python dict. -/
def dictGet (d : PyDict) (k : String) (dflt : ℝ) : ℝ := (d k).getD dflt

/-- `np.radians`: degrees to radians. -/
noncomputable def radians (deg : ℝ) : ℝ := deg * Real.pi / 180

/-! ## Entry/Breakup model (`simulation/entry_model.py`, `FragmentCloudModel.run_entry`) -/

/-- Yield strength `Ym_strength = 10**(2.107 + 0.0624*sqrt(density))`. -/
noncomputable def Ym_strength (density : ℝ) : ℝ :=
  (10 : ℝ) ^ (2.107 + 0.0624 * Real.sqrt density)

/-- Dimensionless breakup parameter
`If_value = 4.07*2*8*Ym_strength / (density*diameter*speed**2*sin(angle))`,
with `speed = case['speed']*1000` (m/s) and `angle` in radians. -/
noncomputable def If_value (c : Case) : ℝ :=
  4.07 * 2 * 8 * Ym_strength c.density /
    (c.density * c.diameter * (c.speed * 1000) ^ 2 * Real.sin (radians c.angle))

/-- Deceleration profile `vi(z) = speed*exp(-3*p(z)*2*8/(4*density*diameter*sin(angle)))`
with `p(z) = exp(-z/8)` (z in km). -/
noncomputable def vi (c : Case) (z : ℝ) : ℝ :=
  c.speed * 1000 *
    Real.exp (-3 * Real.exp (-z / 8) * 2 * 8 /
      (4 * c.density * c.diameter * Real.sin (radians c.angle)))

/-- Breakup-branch burst altitude
`-8*(log(Ym_strength/speed**2) + 1.308 - 0.314*If_value - 1.303*sqrt(1-If_value))`. -/
noncomputable def burst_altitude_breakup (c : Case) : ℝ :=
  -8 * (Real.log (Ym_strength c.density / (c.speed * 1000) ^ 2) + 1.308 -
    0.314 * If_value c - 1.303 * Real.sqrt (1 - If_value c))

/-- Per-case output dict of `FragmentCloudModel.run_entry`
(keys `'burst_altitude_km'` and `'speed_at_breakup_ms'`). -/
structure EntryResult where
  burst_altitude_km : ℝ
  speed_at_breakup_ms : ℝ

/-- `FragmentCloudModel.run_entry`.  In the `If_value < 1` branch both dict
values are assigned and the dict is returned.  In the `else` branch the code
assigns `burst_altitude_km = 0` and `speed_at_breakup = 0`, so the local
`speed_at_breakup_ms` is never bound and the `return` statement raises
`NameError`. -/
noncomputable def run_entry (c : Case) : Except PyErr EntryResult :=
  if If_value c < 1 then
    .ok ⟨burst_altitude_breakup c, vi c (burst_altitude_breakup c)⟩
  else
    .error .nameError

/-- The dict returned by `run_entry` in the breakup branch, as read through
`dict.get` by downstream stages. -/
def entryDict (r : EntryResult) : PyDict := fun k =>
  if k = "burst_altitude_km" then some r.burst_altitude_km
  else if k = "speed_at_breakup_ms" then some r.speed_at_breakup_ms
  else none

/-- A valid case (positive diameter, density, speed, angle) whose breakup
parameter satisfies `If_value ≥ 1`: a small, slow, strong body. -/
def entryNoBreakupCase : Case := ⟨1, 2500, 0.001, 90⟩

theorem entry_sin_ninety : Real.sin (radians 90) = 1 := by
  have h : radians 90 = Real.pi / 2 := by unfold radians; ring
  rw [h, Real.sin_pi_div_two]

theorem Ym_strength_2500_ge : (100000 : ℝ) ≤ Ym_strength 2500 := by
  unfold Ym_strength
  have hsqrt : Real.sqrt (2500 : ℝ) = 50 := by
    rw [show (2500 : ℝ) = 50 ^ 2 by norm_num, Real.sqrt_sq (by norm_num : (0:ℝ) ≤ 50)]
  rw [hsqrt]
  have h5 : ((10:ℝ) ^ ((5:ℕ) : ℝ)) = 100000 := by
    rw [Real.rpow_natCast]; norm_num
  calc (100000 : ℝ) = (10:ℝ) ^ ((5:ℕ) : ℝ) := h5.symm
    _ ≤ (10:ℝ) ^ (2.107 + 0.0624 * 50 : ℝ) := by
        exact (Real.rpow_le_rpow_left_iff (by norm_num : (1:ℝ) < 10)).mpr (by norm_num)

theorem If_value_entryNoBreakupCase :
    If_value entryNoBreakupCase = 4.07 * 2 * 8 * Ym_strength 2500 / 2500 := by
  unfold If_value entryNoBreakupCase
  norm_num [entry_sin_ninety]

/-- C1.  The claim asserts `run_entry` returns normally in both branches, with
`burst_altitude_km = 0` when `I_f ≥ 1`.  On the code, in the no-breakup branch
(`If_value ≥ 1`) the local `speed_at_breakup_ms` is never assigned (the branch
assigns `speed_at_breakup`), so the `return` raises `NameError`: at the valid
case `entryNoBreakupCase` (diameter 1 m, density 2500 kg/m³, speed 0.001 km/s,
angle 90°) we have `I_f ≥ 1` and `run_entry` raises instead of returning. -/
theorem C1_entry_no_breakup_raises_nameError :
    1 ≤ If_value entryNoBreakupCase ∧
      run_entry entryNoBreakupCase = .error .nameError := by
  have hIf : 1 ≤ If_value entryNoBreakupCase := by
    rw [If_value_entryNoBreakupCase]
    rw [le_div_iff₀ (by norm_num : (0:ℝ) < 2500)]
    nlinarith [Ym_strength_2500_ge]
  refine ⟨hIf, ?_⟩
  unfold run_entry
  rw [if_neg (not_lt.mpr hIf)]

/-! ## Descent/Crater model (`simulation/crater_model.py`, `CraterModel.run_impact_crater_model`)

The pancake-descent ODE is handed to `scipy.integrate.solve_ivp`; we embed the
solver's output as the lists of time points and state components it returns,
and embed scipy's event-termination semantics separately: integration stops at
an event time only when the event object carries `terminal = True`; a plain
function (as passed here) has no `terminal` attribute and is non-terminal, so
the solver runs to the end of `t_span`. -/

/-- `sol` as returned by `solve_ivp`: time points `t` and the three state
rows `v` (velocity), `m` (mass), `h` (altitude). -/
structure IvpSol where
  t : List ℝ
  v : List ℝ
  m : List ℝ
  h : List ℝ

/-- `xs[-1]` on the nonempty numpy arrays consumed by the model. -/
def lastD (l : List ℝ) : ℝ := l.getLastD 0

/-- Final integration time of `solve_ivp`: the first event time when the
event is terminal, the end of the time span otherwise. -/
def solveIvpFinalTime (tEnd : ℝ) (terminal : Bool) (firstEventTime : Option ℝ) : ℝ :=
  match terminal, firstEventTime with
  | true, some te => te
  | _, _ => tEnd

/-- The ground-crossing event passed by the crater model,
`events=lambda t, y: y[2] - 0`, is a bare function with no `terminal`
attribute, so scipy treats it as non-terminal. -/
def craterEventTerminal : Bool := false

/-- `t_span = (0, 500)`. -/
def craterTSpan : ℝ × ℝ := (0, 500)

/-- Final time of the crater model's descent integration, as a function of
the (possible) first ground-crossing time recorded by the event. -/
def descentFinalTime (firstCross : Option ℝ) : ℝ :=
  solveIvpFinalTime craterTSpan.2 craterEventTerminal firstCross

/-- `descent_time = sol.t[-1]`. -/
def descentTime (sol : IvpSol) : ℝ := lastD sol.t

/-- `np.gradient(f, x)` at index `i` (second-order central differences with
non-uniform spacing in the interior, first-order one-sided at the edges). -/
noncomputable def npGradientAt (f x : List ℝ) (i : ℕ) : ℝ :=
  if i = 0 then (f.getD 1 0 - f.getD 0 0) / (x.getD 1 0 - x.getD 0 0)
  else if i = f.length - 1 then
    (f.getD i 0 - f.getD (i - 1) 0) / (x.getD i 0 - x.getD (i - 1) 0)
  else
    let hs := x.getD i 0 - x.getD (i - 1) 0
    let hd := x.getD (i + 1) 0 - x.getD i 0
    (hs ^ 2 * f.getD (i + 1) 0 + (hd ^ 2 - hs ^ 2) * f.getD i 0 -
      hd ^ 2 * f.getD (i - 1) 0) / (hs * hd * (hd + hs))

/-- `np.gradient(f, x)`. -/
noncomputable def npGradient (f x : List ℝ) : List ℝ :=
  (List.range f.length).map (npGradientAt f x)

/-- `np.argmax`: first index attaining the maximum. -/
noncomputable def npArgmax (l : List ℝ) : ℕ :=
  (List.range l.length).foldl (fun best i => if l.getD best 0 < l.getD i 0 then i else best) 0

/-- Python `round(x, 2)`, modelled as rounding to the nearest multiple of
1/100 (the code's rounded outputs are nowhere near exact ties). -/
noncomputable def round2 (x : ℝ) : ℝ := (round (100 * x) : ℤ) / 100

/-- Initial state `y0 = [speed_at_breakup_ms, mass0, h0]` handed to
`solve_ivp`, with `speed_at_breakup_ms = entry_result.get('speed_at_breakup_ms', 0)`,
`mass0 = density * (4/3)*pi*radius0**3` and
`h0 = entry_result.get('breakup_altitude_km', 0) * 1000`. -/
noncomputable def crater_y0 (c : Case) (entry : PyDict) : ℝ × ℝ × ℝ :=
  (dictGet entry "speed_at_breakup_ms" 0,
   c.density * ((4 : ℝ) / 3 * Real.pi * (c.diameter / 2) ^ 3),
   dictGet entry "breakup_altitude_km" 0 * 1000)

/-- Right-hand side `deriv(t, y)` of the pancake-descent ODE (`y = (v, m, h)`),
with `Cd = 2.0`, `Ch = 0.1`, `Q = 1e7`, `rho0 = 1.2`, `H = 8000`,
`area_expanded = 7 * pi * (diameter/2)**2` and
`theta_rad = np.radians(angle_rad)` (the already-converted angle is converted
a second time here). -/
noncomputable def crater_deriv (c : Case) (y : ℝ × ℝ × ℝ) : ℝ × ℝ × ℝ :=
  let area_expanded := 7 * (Real.pi * (c.diameter / 2) ^ 2)
  let rho := 1.2 * Real.exp (-y.2.2 / 8000)
  (-(2.0 * rho * area_expanded / (2 * y.2.1)) * y.1 ^ 2,
   -(0.1 * rho * area_expanded / (2 * 1e7)) * y.1 ^ 3,
   -y.1 * Real.sin (radians (radians c.angle)))

/-- Transient crater diameter as the code computes it:
`D_tr = k1 * (g**-0.22) * (rho_p / rho_t*math.sin(theta_rad))**0.333 * d**0.78 * v**0.44`
with `k1 = 1.161`, `g = 9.81`, `rho_t = 2000`; by python precedence the sine
factor multiplies the quotient `rho_p / rho_t`. -/
noncomputable def transient_D_tr (rho_p d v theta_rad : ℝ) : ℝ :=
  1.161 * (9.81 : ℝ) ^ (-0.22 : ℝ) * (rho_p / 2000 * Real.sin theta_rad) ^ (0.333 : ℝ) *
    d ^ (0.78 : ℝ) * v ^ (0.44 : ℝ)

/-- The full per-case result dict of `CraterModel.run_impact_crater_model`. -/
structure CraterResult where
  speed_at_ground_ms : ℝ
  diameter_ground_m : ℝ
  airburst_bool : Bool
  burst_altitude_km : ℝ
  speed_at_burst_ms : ℝ
  transient_crater_diameter_m : ℝ
  final_crater_diameter_m : ℝ
  crater_depth_m : ℝ
  ejecta_thickness_at_rim_m : ℝ
  impact_energy_j : ℝ
  impact_energy_kt : ℝ

/-- Part 2 of `run_impact_crater_model` (crater scaling) plus the final dict,
from the ground-impact quantities of Part 1.  `theta_rad` is re-bound to
`angle_rad = np.radians(case['angle'])` (single conversion) before the
scaling step. -/
noncomputable def crater_part2 (c : Case) (speed_at_ground_ms diameter_ground_m : ℝ)
    (airburst_bool : Bool) (burst_altitude_km speed_at_burst_ms : ℝ) : CraterResult :=
  let v := speed_at_ground_ms
  let d := diameter_ground_m
  let rho_p := c.density
  let theta_rad := radians c.angle
  let D_tr := transient_D_tr rho_p d v theta_rad
  let D_f := if D_tr < 3200 then 1.25 * D_tr else 1.3 * D_tr ^ (1.13 : ℝ) / (3200 : ℝ) ^ (0.13 : ℝ)
  let depth := if D_f < 4000 then D_f * 0.2 else D_f * 0.1
  let T_ejecta := 0.14 * D_f ^ (0.74 : ℝ) / (1 + (D_f / 1000) ^ 2)
  let volume := (4 : ℝ) / 3 * Real.pi * (d / 2) ^ 3
  let mass := rho_p * volume
  let impact_energy_j := 0.5 * mass * v ^ 2
  let impact_energy_kt := impact_energy_j / 4184000000000
  { speed_at_ground_ms := speed_at_ground_ms
    diameter_ground_m := diameter_ground_m
    airburst_bool := airburst_bool
    burst_altitude_km := burst_altitude_km
    speed_at_burst_ms := speed_at_burst_ms
    transient_crater_diameter_m := round2 D_tr
    final_crater_diameter_m := round2 D_f
    crater_depth_m := round2 depth
    ejecta_thickness_at_rim_m := round2 T_ejecta
    impact_energy_j := impact_energy_j
    impact_energy_kt := impact_energy_kt }

/-- `radius_expanded = sqrt(area_expanded / pi)` with
`area_expanded = 7 * (pi * (diameter/2)**2)`. -/
noncomputable def radiusExpanded (c : Case) : ℝ :=
  Real.sqrt (7 * (Real.pi * (c.diameter / 2) ^ 2) / Real.pi)

/-- `expansion_time = (radius_expanded - radius0) / expansion_rate` with
`expansion_rate = 100`. -/
noncomputable def expansionTime (c : Case) : ℝ :=
  (radiusExpanded c - c.diameter / 2) / 100

/-- `speed_at_ground_ms = sol.y[0][-1]`. -/
def vGround (sol : IvpSol) : ℝ := lastD sol.v

/-- `max_deposition_index = np.argmax(-np.gradient(0.5*masses*velocities**2, altitudes))`. -/
noncomputable def burstIndex (sol : IvpSol) : ℕ :=
  npArgmax ((npGradient (List.zipWith (fun m v => 0.5 * m * v ^ 2) sol.m sol.v) sol.h).map
    (fun z => -z))

/-- `diameter_ground_m`: the fully expanded diameter when
`descent_time >= expansion_time`, the partially expanded diameter
`2*(radius0 + expansion_rate*descent_time)` otherwise. -/
noncomputable def dGround (c : Case) (sol : IvpSol) : ℝ :=
  if descentTime sol ≥ expansionTime c then 2 * radiusExpanded c
  else 2 * (c.diameter / 2 + 100 * descentTime sol)

/-- `CraterModel.run_impact_crater_model`, as a function of the case, the
entry-result dict (read only through `crater_y0`), and the solver output
`sol` on `crater_y0`/`crater_deriv`.  Part 1 post-processes the trajectory
(burst-altitude re-estimate at the index of maximum kinetic-energy loss per
metre of altitude, ground speed and descent time from the final solver
state, full vs. partial pancake expansion); Part 2 applies the crater
scaling. -/
noncomputable def run_impact_crater_model (c : Case) (_entry : PyDict) (sol : IvpSol) :
    CraterResult :=
  if descentTime sol ≥ expansionTime c then
    crater_part2 c (vGround sol) (dGround c sol) true (sol.h.getD (burstIndex sol) 0 / 1000)
      (sol.v.getD (burstIndex sol) 0)
  else
    crater_part2 c (vGround sol) (dGround c sol) false 0 (vGround sol)

/-- The descent/crater stage as invoked by the orchestrator: the solver
consumes the embedded `deriv` and `y0` and produces the trajectory that the
rest of the model post-processes.  `solver` stands for the deterministic
`scipy` RK45 integration. -/
noncomputable def crater_pipeline
    (solver : ((ℝ × ℝ × ℝ) → ℝ × ℝ × ℝ) → (ℝ × ℝ × ℝ) → IvpSol)
    (c : Case) (entry : PyDict) : CraterResult :=
  run_impact_crater_model c entry (solver (crater_deriv c) (crater_y0 c entry))

/-- C2.  The claim asserts the descent integration terminates when altitude
reaches zero.  On the code, the ground-crossing event passed to `solve_ivp`
is a plain lambda with no `terminal = True`, so the integration always runs
to the end of `t_span = (0, 500)`: the final time is 500 whatever the
ground-crossing time is, and `descent_time` / `speed_at_ground_ms` are read
from the state at `t = 500`, not at the ground crossing. -/
theorem C2_descent_integration_runs_full_span :
    craterEventTerminal = false ∧
      (∀ firstCross : Option ℝ, descentFinalTime firstCross = 500) ∧
      (∀ (sol : IvpSol) (firstCross : Option ℝ),
        lastD sol.t = descentFinalTime firstCross → descentTime sol = 500) := by
  have hfull : ∀ firstCross : Option ℝ, descentFinalTime firstCross = 500 := by
    intro tc
    cases tc <;> rfl
  exact ⟨rfl, hfull, fun sol tc h => by rw [descentTime, h, hfull]⟩

/-- Witness for C2: a trajectory whose solver end time satisfies the
(non-terminal) scipy semantics, although the ground crossing is at time 0. -/
theorem C2_descent_witness :
    lastD (IvpSol.mk [0, 500] [1000, 200] [100, 50] [0, -3000]).t =
        descentFinalTime (some 0) ∧
      descentTime (IvpSol.mk [0, 500] [1000, 200] [100, 50] [0, -3000]) = 500 := by
  have h : lastD (IvpSol.mk [0, 500] [1000, 200] [100, 50] [0, -3000]).t =
      descentFinalTime (some 0) := by
    simp [lastD, descentFinalTime, solveIvpFinalTime, craterTSpan, craterEventTerminal]
  exact ⟨h, C2_descent_integration_runs_full_span.2.2 _ (some 0) h⟩

/-- A concrete stand-in for the deterministic solver, used to instantiate
universally quantified statements about the pipeline. -/
def trivialSolver (_f : (ℝ × ℝ × ℝ) → ℝ × ℝ × ℝ) (y0 : ℝ × ℝ × ℝ) : IvpSol :=
  ⟨[0], [y0.1], [y0.2.1], [y0.2.2]⟩

/-- C4.  `run_entry` returns its altitude under the key
`'burst_altitude_km'`, while the crater model reads
`entry_result.get('breakup_altitude_km', 0)`: the initial altitude `h0` of
the descent integration is 0 for every entry result, and the whole crater
output is independent of the computed burst altitude — two entry results
differing only in `burst_altitude_km` give identical crater results (the
solver sees identical `y0` and the post-processing never reads that key). -/
theorem C4_breakup_altitude_key_mismatch :
    (∀ (c : Case) (r : EntryResult), (crater_y0 c (entryDict r)).2.2 = 0) ∧
      (∀ (solver : ((ℝ × ℝ × ℝ) → ℝ × ℝ × ℝ) → (ℝ × ℝ × ℝ) → IvpSol)
        (c : Case) (r₁ r₂ : EntryResult),
        r₁.speed_at_breakup_ms = r₂.speed_at_breakup_ms →
          crater_pipeline solver c (entryDict r₁) = crater_pipeline solver c (entryDict r₂)) := by
  have hget : ∀ r : EntryResult, dictGet (entryDict r) "breakup_altitude_km" 0 = 0 := by
    intro r
    rw [dictGet, entryDict]
    rw [if_neg (by decide), if_neg (by decide)]
    rfl
  have hspeedget : ∀ r : EntryResult,
      dictGet (entryDict r) "speed_at_breakup_ms" 0 = r.speed_at_breakup_ms := by
    intro r
    rw [dictGet, entryDict]
    rw [if_neg (by decide), if_pos rfl]
    rfl
  refine ⟨fun c r => by simp [crater_y0, hget], ?_⟩
  intro solver c r₁ r₂ hspeed
  have hy : crater_y0 c (entryDict r₁) = crater_y0 c (entryDict r₂) := by
    unfold crater_y0
    rw [hget, hget, hspeedget, hspeedget, hspeed]
  unfold crater_pipeline
  rw [hy]
  rfl

/-- Witness for C4: two concrete entry results that differ only in
`burst_altitude_km` give identical crater results. -/
theorem C4_key_mismatch_witness :
    crater_pipeline trivialSolver (Case.mk 1 1000 1 45) (entryDict (EntryResult.mk 5 100)) =
      crater_pipeline trivialSolver (Case.mk 1 1000 1 45) (entryDict (EntryResult.mk 17 100)) :=
  C4_breakup_altitude_key_mismatch.2 trivialSolver (Case.mk 1 1000 1 45)
    (EntryResult.mk 5 100) (EntryResult.mk 17 100) rfl

/-! ## C3: the transient-crater scaling formula -/

/-- Transient crater diameter as claim C3 states it (refinement reference,
written from the spec's words, to be compared with `transient_D_tr` from the
source): `D_tr = k1 * g^-0.22 * (ρp/(ρt·sinθ))^0.333 * d^0.78 * v^0.44` with
`k1 = 1.161`, `g = 9.81`, `ρt = 2000` and `θ` the entry angle — the sine
divides the density ratio. -/
noncomputable def spec_transient_D_tr (rho_p d v theta_rad : ℝ) : ℝ :=
  1.161 * (9.81 : ℝ) ^ (-0.22 : ℝ) * (rho_p / (2000 * Real.sin theta_rad)) ^ (0.333 : ℝ) *
    d ^ (0.78 : ℝ) * v ^ (0.44 : ℝ)

theorem crater_part2_transient (c : Case) (v d : ℝ) (ab : Bool) (bk sb : ℝ) :
    (crater_part2 c v d ab bk sb).transient_crater_diameter_m =
      round2 (transient_D_tr c.density d v (radians c.angle)) := rfl

theorem round2_le_add (x : ℝ) : round2 x ≤ x + 1 / 200 := by
  unfold round2
  rw [div_le_iff₀ (by norm_num : (0:ℝ) < 100)]
  have h := abs_sub_round (100 * x)
  rw [abs_le] at h
  linarith [h.1]

theorem round2_mono {x y : ℝ} (h : x ≤ y) : round2 x ≤ round2 y := by
  unfold round2
  have hf : round (100 * x) ≤ round (100 * y) := by
    rw [round_eq, round_eq]
    exact Int.floor_le_floor (by linarith)
  have hc : ((round (100 * x) : ℤ) : ℝ) ≤ ((round (100 * y) : ℤ) : ℝ) := by exact_mod_cast hf
  linarith

theorem sin_radians_thirty : Real.sin (radians 30) = 1 / 2 := by
  rw [show radians 30 = Real.pi / 6 by unfold radians; ring, Real.sin_pi_div_six]

/-- The two sides of C3 differ at density 2000 kg/m³, ground diameter 1 m,
ground speed 1 m/s, entry angle 30°: the code's value is below
`1.161 * 9.81^-0.22 * 0.85 + 0.005` while the spec value is above
`1.161 * 9.81^-0.22 * 1.18`. -/
theorem crater_scaling_code_lt_spec :
    round2 (transient_D_tr 2000 1 1 (radians 30)) <
      spec_transient_D_tr 2000 1 1 (radians 30) := by
  have hcode : transient_D_tr 2000 1 1 (radians 30) =
      1.161 * (9.81:ℝ) ^ (-0.22:ℝ) * ((1:ℝ)/2) ^ (0.333:ℝ) := by
    unfold transient_D_tr
    rw [sin_radians_thirty]
    norm_num [Real.one_rpow]
  have hspec : spec_transient_D_tr 2000 1 1 (radians 30) =
      1.161 * (9.81:ℝ) ^ (-0.22:ℝ) * (2:ℝ) ^ (0.333:ℝ) := by
    unfold spec_transient_D_tr
    rw [sin_radians_thirty]
    norm_num [Real.one_rpow]
  have hBlo : (0.1 : ℝ) ≤ (9.81:ℝ) ^ (-0.22:ℝ) := by
    have h1 : (9.81:ℝ) ^ (-1:ℝ) ≤ (9.81:ℝ) ^ (-0.22:ℝ) :=
      (Real.rpow_le_rpow_left_iff (by norm_num : (1:ℝ) < 9.81)).mpr (by norm_num)
    have h2 : (9.81:ℝ) ^ (-1:ℝ) = (9.81:ℝ)⁻¹ := Real.rpow_neg_one 9.81
    rw [h2] at h1
    have : (0.1 : ℝ) ≤ (9.81:ℝ)⁻¹ := by norm_num
    linarith
  have hq4 : ((2:ℝ) ^ ((1:ℝ)/4)) ^ (4:ℕ) = 2 := by
    rw [← Real.rpow_natCast ((2:ℝ) ^ ((1:ℝ)/4)) 4, ← Real.rpow_mul (by norm_num : (0:ℝ) ≤ 2)]
    norm_num
  have h2lo : (1.18:ℝ) ≤ (2:ℝ) ^ (0.333:ℝ) := by
    have ha : (1.18:ℝ) ≤ (2:ℝ) ^ ((1:ℝ)/4) := by
      apply le_of_pow_le_pow_left₀ (by norm_num : 4 ≠ 0) (Real.rpow_nonneg (by norm_num) _)
      rw [hq4]; norm_num
    have hb : (2:ℝ) ^ ((1:ℝ)/4) ≤ (2:ℝ) ^ (0.333:ℝ) :=
      (Real.rpow_le_rpow_left_iff (by norm_num : (1:ℝ) < 2)).mpr (by norm_num)
    linarith
  have hh4 : (((1:ℝ)/2) ^ ((1:ℝ)/4)) ^ (4:ℕ) = 1/2 := by
    rw [← Real.rpow_natCast (((1:ℝ)/2) ^ ((1:ℝ)/4)) 4,
      ← Real.rpow_mul (by norm_num : (0:ℝ) ≤ 1/2)]
    norm_num
  have hhhi : ((1:ℝ)/2) ^ (0.333:ℝ) ≤ 0.85 := by
    have ha : ((1:ℝ)/2) ^ (0.333:ℝ) ≤ ((1:ℝ)/2) ^ ((1:ℝ)/4) :=
      Real.rpow_le_rpow_of_exponent_ge (by norm_num) (by norm_num) (by norm_num)
    have hb : ((1:ℝ)/2) ^ ((1:ℝ)/4) ≤ 0.85 := by
      apply le_of_pow_le_pow_left₀ (by norm_num : 4 ≠ 0) (by norm_num : (0:ℝ) ≤ 0.85)
      rw [hh4]; norm_num
    linarith
  have hround := round2_le_add (1.161 * (9.81:ℝ) ^ (-0.22:ℝ) * ((1:ℝ)/2) ^ (0.333:ℝ))
  have hhnn : (0:ℝ) ≤ ((1:ℝ)/2) ^ (0.333:ℝ) := Real.rpow_nonneg (by norm_num) _
  rw [hcode, hspec]
  nlinarith [hround, hBlo, h2lo, hhhi, hhnn]

/-- The empty entry-result dict. -/
def emptyDict : PyDict := fun _ => none

/-- Concrete counterexample case for C3: density 2000 kg/m³ (equal to the
target density), entry angle 30°. -/
def c3case : Case := ⟨1, 2000, 20, 30⟩

/-- Concrete solver output for C3: the cloud is still at the ground with
unit speed and mass; the descent time 0 is below the expansion time, so the
ground diameter is the partial-expansion diameter `2*(1/2 + 100*0) = 1`. -/
def c3sol : IvpSol := ⟨[0, 0], [1, 1], [1, 1], [0, 0]⟩

theorem c3_descentTime : descentTime c3sol = 0 := rfl

theorem c3_radiusExpanded : radiusExpanded c3case = Real.sqrt 7 / 2 := by
  unfold radiusExpanded
  have hdiam : c3case.diameter = 1 := rfl
  rw [hdiam]
  rw [show 7 * (Real.pi * ((1:ℝ) / 2) ^ 2) / Real.pi = 7 / 4 by
    field_simp
    ring]
  rw [Real.sqrt_div (by norm_num : (0:ℝ) ≤ 7) 4]
  rw [show (4:ℝ) = 2 ^ 2 by norm_num, Real.sqrt_sq (by norm_num : (0:ℝ) ≤ 2)]

theorem c3_not_expanded : ¬ descentTime c3sol ≥ expansionTime c3case := by
  have h7 : (1:ℝ) < Real.sqrt 7 := by
    have h := Real.sqrt_lt_sqrt (by norm_num : (0:ℝ) ≤ 1) (by norm_num : (1:ℝ) < 7)
    rwa [Real.sqrt_one] at h
  have hpos : 0 < expansionTime c3case := by
    unfold expansionTime
    rw [c3_radiusExpanded, show c3case.diameter = 1 from rfl]
    have : (0:ℝ) < (Real.sqrt 7 / 2 - 1 / 2) / 100 := by linarith
    linarith
  rw [c3_descentTime]
  exact not_le.mpr hpos

theorem c3_dGround : dGround c3case c3sol = 1 := by
  unfold dGround
  rw [if_neg c3_not_expanded, c3_descentTime, show c3case.diameter = 1 from rfl]
  norm_num

/-- C3, counterexample.  At density 2000 kg/m³ (equal to the target density),
entry angle 30°, ground diameter 1 m and ground speed 1 m/s, the transient
crater diameter the model computes is strictly below (hence not equal to)
the spec's
`1.161 * 9.81^-0.22 * (ρp/(ρt·sinθ))^0.333 * d^0.78 * v^0.44`: python
precedence makes `rho_p / rho_t*math.sin(theta_rad)` mean `(ρp/ρt)·sinθ`,
so the code's density-ratio factor is `(1/2)^0.333`, not `2^0.333`. -/
theorem C3_transient_crater_formula_counterexample :
    (run_impact_crater_model c3case emptyDict c3sol).diameter_ground_m = 1 ∧
      (run_impact_crater_model c3case emptyDict c3sol).speed_at_ground_ms = 1 ∧
      (run_impact_crater_model c3case emptyDict c3sol).transient_crater_diameter_m <
        spec_transient_D_tr 2000 1 1 (radians 30) := by
  have hrun : run_impact_crater_model c3case emptyDict c3sol =
      crater_part2 c3case (vGround c3sol) (dGround c3case c3sol) false 0 (vGround c3sol) := by
    unfold run_impact_crater_model
    rw [if_neg c3_not_expanded]
  have hv : vGround c3sol = 1 := rfl
  refine ⟨?_, ?_, ?_⟩
  · rw [hrun]
    show dGround c3case c3sol = 1
    exact c3_dGround
  · rw [hrun]
    exact hv
  · rw [hrun, crater_part2_transient, c3_dGround, hv,
      show c3case.density = 2000 from rfl, show c3case.angle = 30 from rfl]
    exact crater_scaling_code_lt_spec

/-- C3, amended.  The transient crater diameter the model returns is
`round(D_tr, 2)` with
`D_tr = 1.161 * 9.81^-0.22 * ((ρp·sinθ)/ρt)^0.333 * d^0.78 * v^0.44`,
`ρt = 2000`, `θ` the entry angle in radians (converted once), `d` the ground
debris-cloud diameter and `v` the ground-impact speed: the sine factor
multiplies the density ratio instead of dividing it. -/
theorem C3_transient_crater_formula_amended (c : Case) (entry : PyDict) (sol : IvpSol) :
    (run_impact_crater_model c entry sol).transient_crater_diameter_m =
      round2 (1.161 * (9.81:ℝ) ^ (-0.22:ℝ) *
        (c.density * Real.sin (radians c.angle) / 2000) ^ (0.333:ℝ) *
        (dGround c sol) ^ (0.78:ℝ) * (vGround sol) ^ (0.44:ℝ)) := by
  have hbase : c.density / 2000 * Real.sin (radians c.angle) =
      c.density * Real.sin (radians c.angle) / 2000 := by ring
  unfold run_impact_crater_model
  by_cases h : descentTime sol ≥ expansionTime c
  · rw [if_pos h, crater_part2_transient]
    unfold transient_D_tr
    rw [hbase]
  · rw [if_neg h, crater_part2_transient]
    unfold transient_D_tr
    rw [hbase]

/-- C9.  In the crater-scaling sub-stage, with the ground debris-cloud
diameter, the densities and the impact angle held fixed (in the physical
regime: nonnegative diameter and nonnegative density-ratio·sine factor),
increasing the ground-impact velocity from `v₁ ≥ 0` to `v₂ ≥ v₁` never
decreases the transient crater diameter, nor its rounded returned value. -/
theorem C9_crater_scaling_monotone_in_velocity (rho_p theta d v₁ v₂ : ℝ)
    (hd : 0 ≤ d) (hbase : 0 ≤ rho_p / 2000 * Real.sin theta)
    (hv₁ : 0 ≤ v₁) (hv : v₁ ≤ v₂) :
    transient_D_tr rho_p d v₁ theta ≤ transient_D_tr rho_p d v₂ theta ∧
      round2 (transient_D_tr rho_p d v₁ theta) ≤ round2 (transient_D_tr rho_p d v₂ theta) := by
  have hmono : transient_D_tr rho_p d v₁ theta ≤ transient_D_tr rho_p d v₂ theta := by
    unfold transient_D_tr
    have hvpow : v₁ ^ (0.44:ℝ) ≤ v₂ ^ (0.44:ℝ) :=
      Real.rpow_le_rpow hv₁ hv (by norm_num)
    have hC : 0 ≤ 1.161 * (9.81:ℝ) ^ (-0.22:ℝ) *
        (rho_p / 2000 * Real.sin theta) ^ (0.333:ℝ) * d ^ (0.78:ℝ) := by
      have h1 : (0:ℝ) ≤ (9.81:ℝ) ^ (-0.22:ℝ) := Real.rpow_nonneg (by norm_num) _
      have h2 : (0:ℝ) ≤ (rho_p / 2000 * Real.sin theta) ^ (0.333:ℝ) :=
        Real.rpow_nonneg hbase _
      have h3 : (0:ℝ) ≤ d ^ (0.78:ℝ) := Real.rpow_nonneg hd _
      positivity
    exact mul_le_mul_of_nonneg_left hvpow hC
  exact ⟨hmono, round2_mono hmono⟩

/-- Witness for C9 at density 2000 kg/m³, angle 30°, ground diameter 1 m,
velocities 0 and 1 m/s. -/
theorem C9_monotone_witness :
    (0:ℝ) ≤ (2000:ℝ) / 2000 * Real.sin (radians 30) ∧
      round2 (transient_D_tr 2000 1 0 (radians 30)) ≤
        round2 (transient_D_tr 2000 1 1 (radians 30)) := by
  have hbase : (0:ℝ) ≤ (2000:ℝ) / 2000 * Real.sin (radians 30) := by
    rw [sin_radians_thirty]; norm_num
  exact ⟨hbase, (C9_crater_scaling_monotone_in_velocity 2000 (radians 30) 1 0 1
    (by norm_num) hbase le_rfl (by norm_num)).2⟩

theorem crater_part2_speed (c : Case) (v d : ℝ) (ab : Bool) (bk sb : ℝ) :
    (crater_part2 c v d ab bk sb).speed_at_ground_ms = v := rfl

/-- A non-physical solver output: the trajectory ends (at `t = 500`) with
negative mass and negative velocity, and the altitude has gone 100 m below
ground. -/
def c7sol : IvpSol := ⟨[0, 500], [1000, -3], [1, -5], [0, -100]⟩

/-- C7.  The claim (and the spec's failure-semantics requirement) says a
`NumericalDivergence` error must be raised when integration fails to reach
the ground crossing or mass/velocity go non-physical.  The code has no such
guard: on a trajectory whose final mass and velocity are negative, the model
returns a normal result record whose ground speed is the non-physical value,
which then feeds the crater and damage formulas silently. -/
theorem C7_divergent_trajectory_returns_normally :
    lastD c7sol.m < 0 ∧ lastD c7sol.v < 0 ∧
      (run_impact_crater_model (Case.mk 1 3000 20 45) emptyDict c7sol).speed_at_ground_ms
        = -3 := by
  refine ⟨by norm_num [lastD, c7sol], by norm_num [lastD, c7sol], ?_⟩
  unfold run_impact_crater_model
  rw [apply_ite CraterResult.speed_at_ground_ms, crater_part2_speed, crater_part2_speed,
    ite_self]
  rfl

/-! ## Case Table Builder (`inputs/case_generator.py`, `generate_cases`) -/

/-- `impact_energy_mt` as `generate_cases` computes it: just before the
energy computation the code reassigns
`mass_kg = 4*np.pi*pow(impact_cases_df['diameter']/2, 3)/3` (overwriting the
`density * volume` mass computed above it), then
`energy_joules = 0.5 * mass_kg * (speed*1000)**2` and division by
`4.184e15`. -/
noncomputable def case_impact_energy_mt (diameter speed : ℝ) : ℝ :=
  0.5 * (4 * Real.pi * (diameter / 2) ^ 3 / 3) * (speed * 1000) ^ 2 / 4.184e15

/-- `impact_energy_mt` as claim C5 states it (refinement reference, written
from the spec's words, to be compared with `case_impact_energy_mt` from the
source): `E = 0.5*m*v²` in megatons with the pre-entry mass
`m = density * (4/3)*π*(diameter/2)³`. -/
noncomputable def spec_impact_energy_mt (diameter density speed : ℝ) : ℝ :=
  0.5 * (density * ((4:ℝ) / 3 * Real.pi * (diameter / 2) ^ 3)) * (speed * 1000) ^ 2 / 4.184e15

/-- C5.  The code's nominal impact energy misses the density factor: it
coincides with the spec formula only at density 1, and at diameter 2 m,
density 2 kg/m³, speed 1 km/s the spec value is exactly twice the (positive)
code value — so the two differ at that input. -/
theorem C5_impact_energy_missing_density :
    (∀ dm sp : ℝ, case_impact_energy_mt dm sp = spec_impact_energy_mt dm 1 sp) ∧
      spec_impact_energy_mt 2 2 1 = 2 * case_impact_energy_mt 2 1 ∧
      0 < case_impact_energy_mt 2 1 := by
  refine ⟨fun dm sp => by unfold case_impact_energy_mt spec_impact_energy_mt; ring, ?_, ?_⟩
  · unfold case_impact_energy_mt spec_impact_energy_mt
    ring
  · unfold case_impact_energy_mt
    positivity

/-! ## Global effects (`simulation/damage_models/global_effects.py`) -/

/-- `GlobalEffectsModel.calculate_damage`: `energy_gt = impact_energy_mt/1000`;
`fraction = 0`, except when `energy_gt > 40` and `log10(energy_gt) > 2`,
where `fraction = min(1.0, 0.25*(log_e - 2))`. -/
noncomputable def calculate_global_effects (impact_energy_mt : ℝ) : ℝ :=
  if 40 < impact_energy_mt / 1000 then
    if 2 < Real.logb 10 (impact_energy_mt / 1000) then
      min 1 (0.25 * (Real.logb 10 (impact_energy_mt / 1000) - 2))
    else 0
  else 0

/-- Clamp to the unit interval. -/
noncomputable def clamp01 (x : ℝ) : ℝ := max 0 (min 1 x)

/-- C6.  The global-effects fraction is 0 at or below the 40 Gt threshold,
equals `clamp(0.25*(log10(E_gt)-2), 0, 1)` above it, and lies in `[0, 1]`
for every energy. -/
theorem C6_global_effects_threshold_clamp (E : ℝ) :
    (E / 1000 ≤ 40 → calculate_global_effects E = 0) ∧
      (40 < E / 1000 →
        calculate_global_effects E = clamp01 (0.25 * (Real.logb 10 (E / 1000) - 2))) ∧
      0 ≤ calculate_global_effects E ∧ calculate_global_effects E ≤ 1 := by
  unfold calculate_global_effects clamp01
  by_cases h40 : 40 < E / 1000
  · rw [if_pos h40]
    by_cases h2 : 2 < Real.logb 10 (E / 1000)
    · rw [if_pos h2]
      have hx : 0 ≤ 0.25 * (Real.logb 10 (E / 1000) - 2) := by linarith
      have hmin : 0 ≤ min 1 (0.25 * (Real.logb 10 (E / 1000) - 2)) :=
        le_min (by norm_num) hx
      refine ⟨fun hle => absurd h40 (not_lt.mpr hle), fun _ => (max_eq_right hmin).symm,
        hmin, min_le_left _ _⟩
    · rw [if_neg h2]
      have hx : 0.25 * (Real.logb 10 (E / 1000) - 2) ≤ 0 := by
        have := not_lt.mp h2
        linarith
      have hmin : min 1 (0.25 * (Real.logb 10 (E / 1000) - 2)) =
          0.25 * (Real.logb 10 (E / 1000) - 2) := min_eq_right (by linarith)
      refine ⟨fun hle => absurd h40 (not_lt.mpr hle), fun _ => ?_, le_rfl, by norm_num⟩
      rw [hmin, max_eq_left hx]
  · rw [if_neg h40]
    exact ⟨fun _ => rfl, fun hlt => absurd hlt h40, le_rfl, by norm_num⟩

/-- Witness for C6 above the threshold (`E_gt = 200`). -/
theorem C6_global_effects_witness :
    40 < (200000:ℝ) / 1000 ∧
      calculate_global_effects 200000 =
        clamp01 (0.25 * (Real.logb 10 ((200000:ℝ) / 1000) - 2)) := by
  have h : 40 < (200000:ℝ) / 1000 := by norm_num
  exact ⟨h, (C6_global_effects_threshold_clamp 200000).2.1 h⟩

/-! ## Deterministic sampling mode (spec §4.1 mode (b)) -/

/-- The fixed scalars of the deterministic configuration. -/
structure FixedConfig where
  density : ℝ
  diameter : ℝ
  speed : ℝ
  angle : ℝ
  longitude : ℝ
  latitude : ℝ

/-- One row of the deterministic case table. -/
structure FixedCaseRow where
  density : ℝ
  diameter : ℝ
  speed : ℝ
  angle : ℝ
  longitude : ℝ
  latitude : ℝ
  impact_energy_mt : ℝ

/-- Modelled from the spec: mode (b) of the Property Sampler — "broadcast
the fixed scalars to all `n` rows (no randomness)".  The fixed scalars are
accepted by `generate_cases` and handed to `AsteroidPropertyGenerator`, but
`sample_properties` contains no broadcasting branch under `src`, so this
definition follows the spec's words; `rng` models the process random stream,
which mode (b) does not consult. -/
def sample_properties_fixed (_rng : ℕ → ℝ) (cfg : FixedConfig) (n : ℕ) : List FixedConfig :=
  List.replicate n cfg

/-- The case-table build on the broadcast rows, attaching the nominal
`impact_energy_mt` exactly as `generate_cases` computes it
(`case_impact_energy_mt`). -/
noncomputable def build_case_table (rng : ℕ → ℝ) (cfg : FixedConfig) (n : ℕ) :
    List FixedCaseRow :=
  (sample_properties_fixed rng cfg n).map (fun r =>
    ⟨r.density, r.diameter, r.speed, r.angle, r.longitude, r.latitude,
      case_impact_energy_mt r.diameter r.speed⟩)

/-- C8.  Two runs of the deterministic sampling/case-build pipeline with the
same configuration produce bit-identical case tables whatever the random
streams are, and every one of the `n` rows carries the broadcast fixed
scalars. -/
theorem C8_deterministic_mode_bit_identical (rng₁ rng₂ : ℕ → ℝ) (cfg : FixedConfig) (n : ℕ) :
    build_case_table rng₁ cfg n = build_case_table rng₂ cfg n ∧
      build_case_table rng₁ cfg n = List.replicate n
        ⟨cfg.density, cfg.diameter, cfg.speed, cfg.angle, cfg.longitude, cfg.latitude,
          case_impact_energy_mt cfg.diameter cfg.speed⟩ := by
  refine ⟨rfl, ?_⟩
  unfold build_case_table sample_properties_fixed
  rw [List.map_replicate]

/-! ## Orchestration (`inputs/case_generator.py`, `core/orchestrator.py`) -/

/-- Number of non-`self` parameters of `AsteroidPropertyGenerator.__init__`
(`h_magnitude` only). -/
def asteroidPropertyGenerator_init_nparams : ℕ := 1

/-- Number of positional arguments `generate_cases` passes to the
`AsteroidPropertyGenerator` constructor (`density, diameter, speed, angle,
longitude, latitude, h_magnitude`). -/
def generate_cases_ctor_nargs : ℕ := 7

/-- Python positional-call arity check for a callable with no defaults or
varargs: a mismatched count raises `TypeError`. -/
def pyCallCheck (nargs nparams : ℕ) : Except PyErr Unit :=
  if nargs = nparams then .ok () else .error .typeError

/-- `generate_cases`: the body first constructs
`AsteroidPropertyGenerator(density, diameter, speed, angle, longitude,
latitude, h_magnitude)`; `rest` stands for the remainder of the body
(property sampling and case-table construction), reached only if the
construction succeeds. -/
def generate_cases {α : Type} (rest : ℕ → Except PyErr α) (num_cases : ℕ)
    (_density _diameter _speed _angle _longitude _latitude _h_magnitude : ℝ) :
    Except PyErr α :=
  (pyCallCheck generate_cases_ctor_nargs asteroidPropertyGenerator_init_nparams).bind
    (fun _ => rest num_cases)

/-- `Orchestrator.run_simulation`: step 1 calls `generate_cases` with the
configured values; the per-case simulation loop (`simulate`) and the result
aggregation run only on a successfully generated case table. -/
def run_simulation {α β : Type} (rest : ℕ → Except PyErr α) (simulate : α → β)
    (num_cases : ℕ) (h_magnitude density diameter speed angle longitude latitude : ℝ) :
    Except PyErr β :=
  (generate_cases rest num_cases density diameter speed angle longitude latitude
    h_magnitude).map simulate

/-- C10.  `generate_cases` passes 7 positional arguments to a constructor
accepting only `h_magnitude`, so it raises `TypeError` before any case is
sampled, for every argument tuple; consequently `run_simulation` never
produces a results table for any configuration. -/
theorem C10_generate_cases_always_typeError {α β : Type}
    (rest : ℕ → Except PyErr α) (simulate : α → β) (num_cases : ℕ)
    (h_magnitude density diameter speed angle longitude latitude : ℝ) :
    generate_cases rest num_cases density diameter speed angle longitude latitude
        h_magnitude = .error .typeError ∧
      run_simulation rest simulate num_cases h_magnitude density diameter speed angle
        longitude latitude = .error .typeError :=
  ⟨rfl, rfl⟩

end Kosmos
